import Mathlib

/-!
Shallow embedding of the `dted` package (a reader for DTED terrain-elevation
files) and proofs about it.  Byte buffers are modelled as `List Nat`, Python
strings as `List Char`, Python floats as `ℚ`, and Python exceptions as an
explicit error type threaded through `Except`.  Every definition is translated
from the corresponding function in the source (`src/dted/...`); the source
symbol is named in each doc comment.
-/

namespace DTED

/-- Error kinds mirroring the Python exceptions raised by the package:
`InvalidFileError` (split into the checksum branch, the data-block sentinel
branch and the record-sentinel branch so that their payloads stay visible),
`NoElevationDataError`, `ValueError`, `TypeError`, `IndexError`,
`struct.error`, `OSError` (negative seek) and `ZeroDivisionError`. -/
inductive PyError where
  | checksumMismatch (blockIndex : Int) (expected : Int) (found : Nat)
  | badSentinel (found : Nat)
  | invalidRecord
  | noElevationData
  | valueError
  | typeError
  | indexError
  | structError
  | osError
  | zeroDivisionError
  deriving DecidableEq, Repr

/-- Normalize one endpoint of a Python slice `l[a:b]` for a list of length
`len`: negative indices count from the end, and both ends clamp into
`[0, len]`. -/
def pyNormIdx (len : Nat) (i : Int) : Nat :=
  if i < 0 then ((len : Int) + i).toNat else min i.toNat len

/-- Python slicing `l[a:b]` (both endpoints explicit; `l[a:]` is
`pySlice l a l.length` and `l[:b]` is `pySlice l 0 b`). -/
def pySlice {α : Type} (l : List α) (a b : Int) : List α :=
  (l.take (pyNormIdx l.length b)).drop (pyNormIdx l.length a)

/-- Python (and basic numpy) sequence indexing `l[i]`: a negative index counts
from the end, and an index out of range raises `IndexError`. -/
def pyIndex {α : Type} (l : List α) (i : Int) : Except PyError α :=
  let j : Int := if i < 0 then i + l.length else i
  if h : 0 ≤ j ∧ j.toNat < l.length then .ok (l.get ⟨j.toNat, h.2⟩)
  else .error .indexError

/-- Python `file.read(n)` on the remaining bytes: a negative count reads
everything to the end of the file. -/
def pyRead (rest : List Nat) (n : Int) : List Nat :=
  if n < 0 then rest else rest.take n.toNat

/-- Big-endian unsigned integer value of a byte string (`struct.unpack(">I")`
on a 4-byte buffer). -/
def beU32 (l : List Nat) : Nat :=
  l.foldl (fun a b => 256 * a + b) 0

/-- Reinterpret an unsigned 32-bit value as two's-complement signed
(`struct.unpack(">i")`). -/
def toSigned32 (n : Nat) : Int :=
  if n < 2147483648 then (n : Int) else (n : Int) - 4294967296

/-- Reinterpret an unsigned 16-bit value as two's-complement signed
(one element of `numpy.frombuffer(_, dtype=">i2")`). -/
def toSigned16 (n : Nat) : Int :=
  if n < 32768 then (n : Int) else (n : Int) - 65536

/-- Wrap an integer into the 16-bit two's-complement range, which is what
numpy `int16` arithmetic does on overflow. -/
def wrap16 (x : Int) : Int :=
  (x + 32768) % 65536 - 32768

/-- Decode a byte string as a sequence of big-endian signed 16-bit samples
(`numpy.frombuffer(block[8:-4], dtype=">i2")`). -/
def bytesToInt16 : List Nat → List Int
  | hi :: lo :: rest => toSigned16 (256 * hi + lo) :: bytesToInt16 rest
  | _ => []

/-- One sample of `dted.tile._convert_signed_magnitude`: the mask `data < 0`
selects negative samples and replaces them by
`np.array(0x8000, dtype=">i2") - sample`.  The scalar `0x8000` wraps to
`-32768` when stored as `int16`, and the subtraction is `int16` arithmetic. -/
def convertSample (v : Int) : Int :=
  if v < 0 then wrap16 (-32768 - v) else v

/-- `dted.tile._convert_signed_magnitude` on a one-dimensional array. -/
def _convert_signed_magnitude (data : List Int) : List Int :=
  data.map convertSample

/-- A 16-bit pattern run through `_convert_signed_magnitude`: decode the
pattern as a signed 16-bit sample, convert, and re-encode the 16 low bits. -/
def toPattern16 (v : Int) : Nat :=
  (v % 65536).toNat

/-- Signed-magnitude conversion acting on raw 16-bit patterns. -/
def convertPattern (x : Nat) : Nat :=
  toPattern16 (convertSample (toSigned16 x))

/-- `dted.tile._parse_data_block`.  With checksumming on, the last 4 bytes are
the big-endian signed expected sum and the unsigned byte-sum of the preceding
bytes is compared against it; a mismatch reports the block's self-declared
index `(0xAA << 24) - unpack(">I", block[:4])`.  Then the first byte must be
the sentinel `0xAA`, and the payload `block[8:-4]` is decoded as big-endian
signed 16-bit samples.  `struct.unpack` on a buffer that is not exactly 4
bytes, `block[0]` on an empty buffer, and `frombuffer` on an odd-length
payload raise the corresponding Python errors. -/
def _parse_data_block (block : List Nat) (perform_checksum : Bool) :
    Except PyError (List Int) :=
  let afterChecksum : Except PyError (List Int) :=
    match block.head? with
    | none => .error .indexError
    | some b0 =>
      if b0 ≠ 0xAA then .error (.badSentinel b0)
      else
        let payload := pySlice block 8 (-4)
        if payload.length % 2 ≠ 0 then .error .valueError
        else .ok (bytesToInt16 payload)
  if perform_checksum then
    let last4 := pySlice block (-4) block.length
    if last4.length ≠ 4 then .error .structError
    else
      let checksum := toSigned32 (beU32 last4)
      let sum_ := (pySlice block 0 (-4)).sum
      if (sum_ : Int) ≠ checksum then
        .error (.checksumMismatch ((0xAA <<< 24 : Int) - (beU32 (pySlice block 0 4) : Int))
          checksum sum_)
      else afterChecksum
  else afterChecksum

/-! ### Python numeric string parsing

`int()` and `float()` on the ASCII byte/character fields of the records.
The model covers the forms that can occur in fixed-width DTED fields:
surrounding blanks, an optional sign, decimal digits and (for `float`) one
decimal point.  `none` models the `ValueError` that Python raises. -/

/-- Numeric value of one ASCII digit character. -/
def digitVal (c : Char) : Nat := c.toNat - 48

/-- Decimal value of a digit string (the caller checks the digits). -/
def digitsNatVal (l : List Char) : Nat :=
  l.foldl (fun a c => 10 * a + digitVal c) 0

/-- Strip leading and trailing blanks, as Python's `int()`/`float()` do. -/
def stripSpaces (l : List Char) : List Char :=
  ((l.dropWhile (fun c => c = ' ')).reverse.dropWhile (fun c => c = ' ')).reverse

/-- Parse a nonempty all-digit string, else fail. -/
def digitsVal? (l : List Char) : Option Nat :=
  if l ≠ [] ∧ l.all Char.isDigit then some (digitsNatVal l) else none

/-- Python `int(str)`: optional blanks, optional sign, decimal digits. -/
def pyIntChars? (l : List Char) : Option Int :=
  match stripSpaces l with
  | [] => none
  | c :: r =>
    if c = '+' then (digitsVal? r).map (fun n => (n : Int))
    else if c = '-' then (digitsVal? r).map (fun n => -(n : Int))
    else (digitsVal? (c :: r)).map (fun n => (n : Int))

/-- Python `float(str)` restricted to plain decimal notation:
optional blanks, optional sign, digits with at most one decimal point and at
least one digit overall. -/
def pyFloatChars? (l : List Char) : Option ℚ :=
  let s := stripSpaces l
  let signBody : ℚ × List Char :=
    match s with
    | [] => (1, [])
    | c :: r =>
      if c = '+' then (1, r)
      else if c = '-' then (-1, r)
      else (1, c :: r)
  let body := signBody.2
  let ip := body.takeWhile (fun c => c ≠ '.')
  let rest := body.dropWhile (fun c => c ≠ '.')
  match rest with
  | [] =>
    if ip ≠ [] ∧ ip.all Char.isDigit then some (signBody.1 * (digitsNatVal ip : ℚ))
    else none
  | _ :: fp =>
    if (ip ≠ [] ∨ fp ≠ []) ∧ ip.all Char.isDigit ∧ fp.all Char.isDigit then
      some (signBody.1 * ((digitsNatVal ip : ℚ) + (digitsNatVal fp : ℚ) / (10 : ℚ) ^ fp.length))
    else none

/-- Tail-recursive test `n ≤ l.length`, used for the record-size guards
(`len(data) < SIZE`) so that they evaluate without deep recursion. -/
def lenAtLeast {α : Type} : List α → Nat → Bool
  | _, 0 => true
  | [], _ + 1 => false
  | _ :: t, n + 1 => lenAtLeast t n

/-- Decode a byte field to a Python string (the record fields are ASCII). -/
def bytesToChars (l : List Nat) : List Char := l.map Char.ofNat

/-- Python `int(bytes)`. -/
def pyInt? (l : List Nat) : Option Int := pyIntChars? (bytesToChars l)

/-- Python `float(bytes)`. -/
def pyFloat? (l : List Nat) : Option ℚ := pyFloatChars? (bytesToChars l)

/-- Characters of a Lean string literal (used to write down test buffers). -/
def strChars (s : String) : List Char := s.data

/-- Bytes of an ASCII string literal. -/
def strBytes (s : String) : List Nat := s.data.map Char.toNat

/-- Whether a byte string contains `b"NA"` as a contiguous substring
(Python's `b"NA" in field`). -/
def hasNA : List Nat → Bool
  | [] => false
  | [_] => false
  | a :: b :: rest => (a = 78 && b = 65) || hasNA (b :: rest)

/-- Floor of a rational number (`q.num.fdiv q.den`: floor division). -/
def ratFloor (q : ℚ) : Int := Int.fdiv q.num q.den

/-- Python's built-in `round()` on the exact value: round to the nearest
integer, ties to the even integer (banker's rounding). -/
def roundHalfEven (q : ℚ) : Int :=
  let f := ratFloor q
  let frac := q - (f : ℚ)
  if frac < 1 / 2 then f
  else if 1 / 2 < frac then f + 1
  else if f % 2 = 0 then f else f + 1

/-! ### `dted.latlon` -/

/-- `dted.latlon.LatLon`: an (already validated) latitude-longitude pair in
decimal degrees. -/
structure LatLon where
  latitude : ℚ
  longitude : ℚ
  deriving DecidableEq, Repr

/-- The range validation of `LatLon.__post_init__`: construction raises
`ValueError` outside `[-90, 90] × [-180, 180]`. -/
def mkLatLon (latitude longitude : ℚ) : Except PyError LatLon :=
  if ¬ (-90 ≤ latitude ∧ latitude ≤ 90) then .error .valueError
  else if ¬ (-180 ≤ longitude ∧ longitude ≤ 180) then .error .valueError
  else .ok ⟨latitude, longitude⟩

/-- `dted.latlon.dms_to_decimal`. -/
def dms_to_decimal (degree minute : Int) (second : ℚ) : ℚ :=
  degree + ((minute + second / 60) / 60)

/-- `dted.latlon.parse_dms_coordinate`: split `[D]DDMMSS[.S]` at fixed
negative offsets, detecting a fractional digit by a literal `.` at position
`-2`.  `coordinate[-2]` raises `IndexError` on strings shorter than 2; the
`int()`/`float()` calls raise `ValueError` on malformed slices. -/
def parse_dms_coordinate (coordinate : List Char) : Except PyError (Int × Int × ℚ) :=
  let n := coordinate.length
  if n < 2 then .error .indexError
  else
    let seconds_index : Int := if coordinate.get? (n - 2) = some '.' then -4 else -2
    let minutes_index : Int := seconds_index - 2
    match pyIntChars? (pySlice coordinate 0 minutes_index) with
    | none => .error .valueError
    | some degrees =>
      match pyIntChars? (pySlice coordinate minutes_index seconds_index) with
      | none => .error .valueError
      | some minutes =>
        match pyFloatChars? (pySlice coordinate seconds_index n) with
        | none => .error .valueError
        | some seconds => .ok (degrees, minutes, seconds)

/-- `dted.latlon.LatLon.from_dted`: strip the trailing hemisphere letter
(`S`/`W` negate), parse the numeric portion as degrees-minutes-seconds and
convert to decimal degrees; the resulting `LatLon` is range-validated.
`latitude_str[-1]` raises `IndexError` on an empty string. -/
def LatLon.from_dted (latitude_str longitude_str : List Char) : Except PyError LatLon :=
  if latitude_str.length = 0 then .error .indexError
  else
    let lat_sign : ℚ := if latitude_str.getLast? = some 'S' then -1 else 1
    match parse_dms_coordinate (pySlice latitude_str 0 (-1)) with
    | .error e => .error e
    | .ok (d1, m1, s1) =>
      let latitude := lat_sign * dms_to_decimal d1 m1 s1
      if longitude_str.length = 0 then .error .indexError
      else
        let lon_sign : ℚ := if longitude_str.getLast? = some 'W' then -1 else 1
        match parse_dms_coordinate (pySlice longitude_str 0 (-1)) with
        | .error e => .error e
        | .ok (d2, m2, s2) =>
          let longitude := lon_sign * dms_to_decimal d2 m2 s2
          mkLatLon latitude longitude

/-! ### `dted.records` -/

/-- `dted.records.dsi.parse_month_date`: a `YYMM` string whose month part is
`"00"` is a null date; otherwise `datetime.strptime(date_str, "%y%m")`
requires two digit pairs with a month in `1..12` (years `00`-`68` map to
`20YY`, the rest to `19YY`) and raises `ValueError` otherwise. -/
def parse_month_date (date_str : List Char) : Except PyError (Option (Nat × Nat)) :=
  if pySlice date_str 2 date_str.length = strChars "00" then .ok none
  else if date_str.length = 4 ∧ date_str.all Char.isDigit then
    let yy := digitsNatVal (date_str.take 2)
    let mm := digitsNatVal (date_str.drop 2)
    if 1 ≤ mm ∧ mm ≤ 12 then
      .ok (some ((if yy ≤ 68 then 2000 + yy else 1900 + yy), mm))
    else .error .valueError
  else .error .valueError

/-- `dted.records.uhl.UserHeaderLabel`. -/
structure UserHeaderLabel where
  origin : LatLon
  longitude_interval : ℚ
  latitude_interval : ℚ
  vertical_accuracy : Option Int
  security_code : List Nat
  reference : List Nat
  shape : Int × Int
  multiple_accuracy : Bool
  _data : List Nat
  deriving DecidableEq, Repr

/-- `dted.records.uhl.UserHeaderLabel.from_bytes`: at least 80 bytes, the
`"UHL1"` sentinel, then fixed-width ASCII fields read in file order. -/
def UserHeaderLabel.from_bytes (data : List Nat) : Except PyError UserHeaderLabel :=
  if !(lenAtLeast data 80) then .error .valueError
  else if data.take 4 ≠ strBytes "UHL1" then .error .invalidRecord
  else
    let r1 := data.drop 4
    let longitude_str := bytesToChars (r1.take 8)
    let r2 := r1.drop 8
    let latitude_str := bytesToChars (r2.take 8)
    let r3 := r2.drop 8
    match LatLon.from_dted latitude_str longitude_str with
    | .error e => .error e
    | .ok origin =>
      match pyInt? (r3.take 4) with
      | none => .error .valueError
      | some lon_interval_raw =>
        let r4 := r3.drop 4
        match pyInt? (r4.take 4) with
        | none => .error .valueError
        | some lat_interval_raw =>
          let r5 := r4.drop 4
          let vertical_accuracy_ := r5.take 4
          let r6 := r5.drop 4
          match
            (if hasNA vertical_accuracy_ then .ok none
             else match pyInt? vertical_accuracy_ with
               | none => Except.error PyError.valueError
               | some v => .ok (some v) : Except PyError (Option Int)) with
          | .error e => .error e
          | .ok vertical_accuracy =>
            let security_code := r6.take 3
            let r7 := r6.drop 3
            let reference := r7.take 12
            let r8 := r7.drop 12
            match pyInt? (r8.take 4) with
            | none => .error .valueError
            | some shape_a =>
              match pyInt? ((r8.drop 4).take 4) with
              | none => .error .valueError
              | some shape_b =>
                let multiple_accuracy := (r8.drop 8).take 1 ≠ strBytes "0"
                .ok { origin := origin
                      longitude_interval := (lon_interval_raw : ℚ) / 10
                      latitude_interval := (lat_interval_raw : ℚ) / 10
                      vertical_accuracy := vertical_accuracy
                      security_code := security_code
                      reference := reference
                      shape := (shape_a, shape_b)
                      multiple_accuracy := multiple_accuracy
                      _data := data }

/-- `dted.records.dsi.DataSetIdentification`.  Dates are year-month pairs. -/
structure DataSetIdentification where
  security_code : List Char
  release_markings : List Nat
  handling_description : List Char
  product_level : List Char
  reference : List Nat
  edition : Int
  merge_version : List Char
  maintenance_date : Option (Nat × Nat)
  merge_date : Option (Nat × Nat)
  maintenance_code : List Nat
  producer_code : List Nat
  product_specification : List Nat
  specification_date : Option (Nat × Nat)
  vertical_datum : List Char
  horizontal_datum : List Char
  collection_system : List Char
  compilation_date : Option (Nat × Nat)
  origin : LatLon
  south_west_corner : LatLon
  north_west_corner : LatLon
  north_east_corner : LatLon
  south_east_corner : LatLon
  orientation : ℚ
  latitude_interval : ℚ
  longitude_interval : ℚ
  shape : Int × Int
  coverage : ℚ
  _data : List Nat
  deriving DecidableEq, Repr

/-- `dted.records.dsi.DataSetIdentification.from_bytes`: at least 648 bytes,
the `"DSI"` sentinel, then fixed-width ASCII fields read in file order.  The
two 4-digit counts of the `shape` sub-field are read and then reversed to
`(longitude_count, latitude_count)`; a raw `coverage` of `0` is remapped to
`1`. -/
def DataSetIdentification.from_bytes (data : List Nat) :
    Except PyError DataSetIdentification :=
  if !(lenAtLeast data 648) then .error .valueError
  else if data.take 3 ≠ strBytes "DSI" then .error .invalidRecord
  else
    let r1 := data.drop 3
    let security_code := bytesToChars (r1.take 1)
    let r2 := r1.drop 1
    let release_markings := r2.take 2
    let r3 := r2.drop 2
    let handling_description := bytesToChars (r3.take 27)
    let r4 := (r3.drop 27).drop 26
    let product_level := bytesToChars (r4.take 5)
    let r5 := r4.drop 5
    let reference := r5.take 15
    let r6 := (r5.drop 15).drop 8
    match pyInt? (r6.take 2) with
    | none => .error .valueError
    | some edition =>
      let r7 := r6.drop 2
      let merge_version := bytesToChars (r7.take 1)
      let r8 := r7.drop 1
      match parse_month_date (bytesToChars (r8.take 4)) with
      | .error e => .error e
      | .ok maintenance_date =>
        let r9 := r8.drop 4
        match parse_month_date (bytesToChars (r9.take 4)) with
        | .error e => .error e
        | .ok merge_date =>
          let r10 := r9.drop 4
          let maintenance_code := r10.take 4
          let r11 := r10.drop 4
          let producer_code := r11.take 8
          let r12 := (r11.drop 8).drop 16
          let product_specification := r12.take 11
          let r13 := r12.drop 11
          match parse_month_date (bytesToChars (r13.take 4)) with
          | .error e => .error e
          | .ok specification_date =>
            let r14 := r13.drop 4
            let vertical_datum := bytesToChars (r14.take 3)
            let r15 := r14.drop 3
            let horizontal_datum := bytesToChars (r15.take 5)
            let r16 := r15.drop 5
            let collection_system := bytesToChars (r16.take 10)
            let r17 := r16.drop 10
            match parse_month_date (bytesToChars (r17.take 4)) with
            | .error e => .error e
            | .ok compilation_date =>
              let r18 := (r17.drop 4).drop 22
              match LatLon.from_dted (bytesToChars (r18.take 9))
                  (bytesToChars ((r18.drop 9).take 10)) with
              | .error e => .error e
              | .ok origin =>
                let r19 := (r18.drop 9).drop 10
                match LatLon.from_dted (bytesToChars (r19.take 7))
                    (bytesToChars ((r19.drop 7).take 8)) with
                | .error e => .error e
                | .ok south_west_corner =>
                  let r20 := (r19.drop 7).drop 8
                  match LatLon.from_dted (bytesToChars (r20.take 7))
                      (bytesToChars ((r20.drop 7).take 8)) with
                  | .error e => .error e
                  | .ok north_west_corner =>
                    let r21 := (r20.drop 7).drop 8
                    match LatLon.from_dted (bytesToChars (r21.take 7))
                        (bytesToChars ((r21.drop 7).take 8)) with
                    | .error e => .error e
                    | .ok north_east_corner =>
                      let r22 := (r21.drop 7).drop 8
                      match LatLon.from_dted (bytesToChars (r22.take 7))
                          (bytesToChars ((r22.drop 7).take 8)) with
                      | .error e => .error e
                      | .ok south_east_corner =>
                        let r23 := (r22.drop 7).drop 8
                        match pyFloat? (r23.take 9) with
                        | none => .error .valueError
                        | some orientation =>
                          let r24 := r23.drop 9
                          match pyInt? (r24.take 4) with
                          | none => .error .valueError
                          | some lat_interval_raw =>
                            let r25 := r24.drop 4
                            match pyInt? (r25.take 4) with
                            | none => .error .valueError
                            | some lon_interval_raw =>
                              let r26 := r25.drop 4
                              match pyInt? (r26.take 4) with
                              | none => .error .valueError
                              | some shape_a =>
                                let r27 := r26.drop 4
                                match pyInt? (r27.take 4) with
                                | none => .error .valueError
                                | some shape_b =>
                                  let r28 := r27.drop 4
                                  match pyFloat? (r28.take 2) with
                                  | none => .error .valueError
                                  | some coverage_raw =>
                                    .ok { security_code := security_code
                                          release_markings := release_markings
                                          handling_description := handling_description
                                          product_level := product_level
                                          reference := reference
                                          edition := edition
                                          merge_version := merge_version
                                          maintenance_date := maintenance_date
                                          merge_date := merge_date
                                          maintenance_code := maintenance_code
                                          producer_code := producer_code
                                          product_specification := product_specification
                                          specification_date := specification_date
                                          vertical_datum := vertical_datum
                                          horizontal_datum := horizontal_datum
                                          collection_system := collection_system
                                          compilation_date := compilation_date
                                          origin := origin
                                          south_west_corner := south_west_corner
                                          north_west_corner := north_west_corner
                                          north_east_corner := north_east_corner
                                          south_east_corner := south_east_corner
                                          orientation := orientation
                                          latitude_interval := (lat_interval_raw : ℚ) / 10
                                          longitude_interval := (lon_interval_raw : ℚ) / 10
                                          shape := (shape_b, shape_a)
                                          coverage := if coverage_raw = 0 then 1 else coverage_raw
                                          _data := data }

/-- `dted.records.dsi.DataSetIdentification.data_block_length`:
`12 + 2 * latitude_count` bytes per data block. -/
def DataSetIdentification.data_block_length (dsi : DataSetIdentification) : Int :=
  12 + 2 * dsi.shape.2

/-- `dted.records.acc.AccuracyDescription`. -/
structure AccuracyDescription where
  absolute_horizontal : Option Int
  absolute_vertical : Option Int
  relative_horizontal : Option Int
  relative_vertical : Option Int
  _data : List Nat
  deriving DecidableEq, Repr

/-- One accuracy sub-field of the ACC record: a field containing `b"NA"`
decodes to absent; otherwise `int()` is attempted and, when the `lenient`
flag (the source's `unsafe` keyword argument) is set, a `ValueError` is
swallowed into absent instead of propagating. -/
def accField (field : List Nat) (lenient : Bool) : Except PyError (Option Int) :=
  if hasNA field then .ok none
  else match pyInt? field with
    | some v => .ok (some v)
    | none => if lenient then .ok none else .error .valueError

/-- `dted.records.acc.AccuracyDescription.from_bytes`: at least 2700 bytes,
the `"ACC"` sentinel, then the four 4-byte accuracy sub-fields. -/
def AccuracyDescription.from_bytes (data : List Nat) (lenient : Bool) :
    Except PyError AccuracyDescription :=
  if !(lenAtLeast data 2700) then .error .valueError
  else if data.take 3 ≠ strBytes "ACC" then .error .invalidRecord
  else
    match accField ((data.drop 3).take 4) lenient with
    | .error e => .error e
    | .ok absolute_horizontal =>
      match accField ((data.drop 7).take 4) lenient with
      | .error e => .error e
      | .ok absolute_vertical =>
        match accField ((data.drop 11).take 4) lenient with
        | .error e => .error e
        | .ok relative_horizontal =>
          match accField ((data.drop 15).take 4) lenient with
          | .error e => .error e
          | .ok relative_vertical =>
            .ok { absolute_horizontal := absolute_horizontal
                  absolute_vertical := absolute_vertical
                  relative_horizontal := relative_horizontal
                  relative_vertical := relative_vertical
                  _data := data }

/-! ### `dted.tile.Tile` -/

/-- Total size of the three fixed headers: `UHL_SIZE + DSI_SIZE + ACC_SIZE`. -/
def headerTotalSize : Nat := 80 + 648 + 2700

/-- The DTED void-data sentinel `VOID_DATA_VALUE = (-1 << 15) + 1`. -/
def VOID_DATA_VALUE : Int := -32767

/-- `dted.tile.Tile`: the backing file's bytes, the three parsed header
records and the optional in-memory elevation grid (indexed
`[longitude_index][latitude_index]`). -/
structure Tile where
  fileBytes : List Nat
  uhl : UserHeaderLabel
  dsi : DataSetIdentification
  acc : AccuracyDescription
  _data : Option (List (List Int))
  deriving DecidableEq, Repr

/-- `Tile.__contains__` on a `LatLon` argument: an axis-aligned bounding-box
test against the DSI south-west and north-east corners, inclusive at both
ends. -/
def Tile.contains (t : Tile) (p : LatLon) : Bool :=
  let minimum_latitude := t.dsi.south_west_corner.latitude
  let minimum_longitude := t.dsi.south_west_corner.longitude
  let maximum_latitude := t.dsi.north_east_corner.latitude
  let maximum_longitude := t.dsi.north_east_corner.longitude
  decide (minimum_latitude ≤ p.latitude ∧ p.latitude ≤ maximum_latitude) &&
    decide (minimum_longitude ≤ p.longitude ∧ p.longitude ≤ maximum_longitude)

/-- The latitude index that `Tile.get_elevation` computes:
`round((latlon.latitude - origin_latitude) * (latitude_count - 1) / lat_interval)`. -/
def Tile.latitude_index (t : Tile) (p : LatLon) : Int :=
  roundHalfEven ((p.latitude - t.dsi.origin.latitude) * ((t.dsi.shape.2 : ℚ) - 1) /
    t.dsi.latitude_interval)

/-- The longitude index that `Tile.get_elevation` computes:
`round((latlon.longitude - origin_longitude) * (longitude_count - 1) / lon_interval)`. -/
def Tile.longitude_index (t : Tile) (p : LatLon) : Int :=
  roundHalfEven ((p.longitude - t.dsi.origin.longitude) * ((t.dsi.shape.1 : ℚ) - 1) /
    t.dsi.longitude_interval)

/-- The body of `Tile.get_elevation` after the coverage check: compute the
nearest grid indices (a zero interval raises `ZeroDivisionError`, the
latitude index being computed first) and either index the resident grid, or
seek to `UHL_SIZE + DSI_SIZE + ACC_SIZE + longitude_index * block_length`
(a negative target raises `OSError`), read one block, decode it with the
checksum enabled, convert it from signed magnitude and index the row. -/
def Tile.lookup_elevation (t : Tile) (p : LatLon) : Except PyError Int :=
  if t.dsi.latitude_interval = 0 then .error .zeroDivisionError
  else if t.dsi.longitude_interval = 0 then .error .zeroDivisionError
  else
    let latitude_index := Tile.latitude_index t p
    let longitude_index := Tile.longitude_index t p
    match t._data with
    | some grid =>
      match pyIndex grid longitude_index with
      | .error e => .error e
      | .ok row => pyIndex row latitude_index
    | none =>
      let block_length := t.dsi.data_block_length
      let offset : Int := (headerTotalSize : Int) + longitude_index * block_length
      if offset < 0 then .error .osError
      else
        match _parse_data_block (pyRead (t.fileBytes.drop offset.toNat) block_length) true with
        | .error e => .error e
        | .ok data_block => pyIndex (_convert_signed_magnitude data_block) latitude_index

/-- `dted.tile.Tile.get_elevation` on a `LatLon` argument: raises
`NoElevationDataError` when the location is not contained in the tile. -/
def Tile.get_elevation (t : Tile) (p : LatLon) : Except PyError Int :=
  if Tile.contains t p then Tile.lookup_elevation t p else .error .noElevationData

/-- The list comprehension inside `Tile.load_data`: parse the slice
`data_record[column * block_length : (column + 1) * block_length]` for each
listed column, stopping at the first failing block. -/
def parseBlocks (data_record : List Nat) (block_length : Int) (perform_checksum : Bool) :
    List Nat → Except PyError (List (List Int))
  | [] => .ok []
  | column :: rest =>
    match _parse_data_block
        (pySlice data_record ((column : Int) * block_length) (((column : Int) + 1) * block_length))
        perform_checksum with
    | .error e => .error e
    | .ok parsed =>
      match parseBlocks data_record block_length perform_checksum rest with
      | .error e => .error e
      | .ok parsed_rest => .ok (parsed :: parsed_rest)

/-- `dted.tile.Tile.load_data` as a state transition: read everything after
the headers, parse `shape[0]` blocks, and only after all of them parsed apply
the signed-magnitude conversion to the whole grid and install it in
`self._data`.  An exception propagates before the assignment, so the returned
state is unchanged on failure.  (The non-fatal `VoidDataWarning` emission
does not touch the tile's state and is not modelled.) -/
def Tile.load_data_st (t : Tile) (perform_checksum : Bool) : Except PyError Unit × Tile :=
  let data_record := t.fileBytes.drop headerTotalSize
  let block_length := t.dsi.data_block_length
  match parseBlocks data_record block_length perform_checksum (List.range t.dsi.shape.1.toNat) with
  | .error e => (.error e, t)
  | .ok parsed_data_blocks =>
    (.ok (), { t with _data := some (parsed_data_blocks.map _convert_signed_magnitude) })

/-- `dted.tile.Tile.__init__`: parse the UHL record from the first 80 bytes,
the DSI record from the next 648 and the ACC record from the next 2700 (the
ACC parse uses the default strict mode), then optionally load the grid with
checksums on.  Any failure aborts construction. -/
def Tile.init (fileBytes : List Nat) (in_memory : Bool) : Except PyError Tile :=
  match UserHeaderLabel.from_bytes (fileBytes.take 80) with
  | .error e => .error e
  | .ok uhl =>
    match DataSetIdentification.from_bytes ((fileBytes.drop 80).take 648) with
    | .error e => .error e
    | .ok dsi =>
      match AccuracyDescription.from_bytes ((fileBytes.drop 728).take 2700) false with
      | .error e => .error e
      | .ok acc =>
        let t : Tile := ⟨fileBytes, uhl, dsi, acc, none⟩
        if in_memory then
          match Tile.load_data_st t true with
          | (.ok _, t2) => .ok t2
          | (.error e, _) => .error e
        else .ok t

/-- A dynamically typed Python value passed to `Tile.__contains__` /
`Tile.get_elevation`: either a `LatLon` instance or some other object. -/
inductive PyObj where
  | latlon (p : LatLon)
  | other (repr_ : String)
  deriving DecidableEq, Repr

/-- `Tile.__contains__` with its dynamic `isinstance` guard: any argument
that is not a `LatLon` raises `TypeError` before the bounding-box test. -/
def Tile.contains_py (t : Tile) (item : PyObj) : Except PyError Bool :=
  match item with
  | .other _ => .error .typeError
  | .latlon p => .ok (Tile.contains t p)

/-- `Tile.get_elevation` on a dynamically typed argument: `latlon not in
self` runs `__contains__` first, so its `TypeError` propagates; afterwards
the argument is known to be a `LatLon` and the elevation lookup proceeds. -/
def Tile.get_elevation_py (t : Tile) (item : PyObj) : Except PyError Int :=
  match Tile.contains_py t item with
  | .error e => .error e
  | .ok is_contained =>
    if is_contained then
      match item with
      | .latlon p => Tile.lookup_elevation t p
      | .other _ => .error .typeError
    else .error .noElevationData

/-! ### Decidable equality for `Except` results -/

instance exceptDecEq {ε α : Type} [DecidableEq ε] [DecidableEq α] :
    DecidableEq (Except ε α)
  | .error e, .error f =>
    if h : e = f then .isTrue (by rw [h]) else .isFalse (fun hc => h (Except.error.inj hc))
  | .error _, .ok _ => .isFalse (fun hc => Except.noConfusion hc)
  | .ok _, .error _ => .isFalse (fun hc => Except.noConfusion hc)
  | .ok x, .ok y =>
    if h : x = y then .isTrue (by rw [h]) else .isFalse (fun hc => h (Except.ok.inj hc))

/-! ### Concrete inputs used by the witnesses and counterexamples -/

/-- A run of blank (space) bytes. -/
def spaces (n : Nat) : List Nat := List.replicate n 32

/-- Byte 0-79 of the crafted counterexample file: a well-formed UHL record
with origin `(0° N, 1° E)`, 1-second intervals and a `2 × 1` grid. -/
def cexUHL : List Nat :=
  strBytes "UHL1" ++ strBytes "0010000E" ++ strBytes "0000000N" ++ strBytes "0010" ++
    strBytes "0010" ++ strBytes "0004" ++ strBytes "U  " ++ strBytes "REFERENCE000" ++
    strBytes "0002" ++ strBytes "0001" ++ strBytes "0" ++ spaces 24

/-- Bytes 80-727 of the crafted counterexample file: a well-formed DSI record
whose origin `(0, 1)` is the south-*east* corner while the corner fields span
`[0,1] × [0,1]` (nothing in the reader checks that the origin is the
south-west corner), with shape `(longitude_count, latitude_count) = (2, 1)`
and 1-second intervals. -/
def cexDSI : List Nat :=
  strBytes "DSI" ++ strBytes "U" ++ spaces 2 ++ spaces 27 ++ spaces 26 ++ strBytes "DTED1" ++
    spaces 15 ++ spaces 8 ++ strBytes "01" ++ strBytes "A" ++ strBytes "0000" ++
    strBytes "0000" ++ spaces 4 ++ spaces 8 ++ spaces 16 ++ spaces 11 ++ strBytes "0000" ++
    strBytes "MSL" ++ strBytes "WGS84" ++ spaces 10 ++ strBytes "0000" ++ spaces 22 ++
    strBytes "000000.0N" ++ strBytes "0010000.0E" ++
    strBytes "000000N" ++ strBytes "0000000E" ++
    strBytes "010000N" ++ strBytes "0000000E" ++
    strBytes "010000N" ++ strBytes "0010000E" ++
    strBytes "000000N" ++ strBytes "0010000E" ++
    strBytes "0000000.0" ++ strBytes "0010" ++ strBytes "0010" ++
    strBytes "0001" ++ strBytes "0002" ++ strBytes "00" ++ spaces 357

/-- Bytes 728-3427 of the crafted counterexample file: a well-formed ACC
record whose unparsed tail ends, 14 bytes before the data record, with bytes
that happen to form a valid data block carrying the sample 999. -/
def cexACC : List Nat :=
  strBytes "ACC" ++ strBytes "0000" ++ strBytes "0000" ++ strBytes "0000" ++ strBytes "0000" ++
    spaces 2667 ++ [0xAA, 0, 0, 0, 0, 0, 0, 0, 3, 231, 0, 0, 1, 148]

/-- The two 14-byte data blocks of the crafted counterexample file, with
samples 100 and 200 and correct checksums. -/
def cexData : List Nat :=
  [0xAA, 0, 0, 0, 0, 0, 0, 0, 0, 100, 0, 0, 1, 14] ++
    [0xAA, 0, 0, 0, 0, 0, 0, 0, 0, 200, 0, 0, 1, 114]

/-- The complete 3456-byte crafted counterexample file. -/
def cexFile : List Nat := cexUHL ++ cexDSI ++ cexACC ++ cexData

/-- The query point for the crafted file: the south-west corner `(0, 0)`,
inside coverage, whose longitude index is `round((0 - 1) * (2 - 1) / 1) = -1`. -/
def cexPoint : LatLon := ⟨0, 0⟩

/-- A UHL record value for tiles built directly as structure literals (its
fields are irrelevant to the elevation queries). -/
def testUHL : UserHeaderLabel :=
  { origin := ⟨0, 0⟩
    longitude_interval := 1
    latitude_interval := 1
    vertical_accuracy := some 4
    security_code := []
    reference := []
    shape := (1, 1)
    multiple_accuracy := false
    _data := [] }

/-- A DSI record value with origin at the south-west corner `(0, 0)`,
north-east corner `(1, 1)`, unit intervals and the given shape. -/
def mkTestDSI (shape : Int × Int) : DataSetIdentification :=
  { security_code := []
    release_markings := []
    handling_description := []
    product_level := []
    reference := []
    edition := 1
    merge_version := []
    maintenance_date := none
    merge_date := none
    maintenance_code := []
    producer_code := []
    product_specification := []
    specification_date := none
    vertical_datum := []
    horizontal_datum := []
    collection_system := []
    compilation_date := none
    origin := ⟨0, 0⟩
    south_west_corner := ⟨0, 0⟩
    north_west_corner := ⟨1, 0⟩
    north_east_corner := ⟨1, 1⟩
    south_east_corner := ⟨0, 1⟩
    orientation := 0
    latitude_interval := 1
    longitude_interval := 1
    shape := shape
    coverage := 1
    _data := [] }

/-- An ACC record value for tiles built directly as structure literals. -/
def testACC : AccuracyDescription :=
  { absolute_horizontal := none
    absolute_vertical := none
    relative_horizontal := none
    relative_vertical := none
    _data := [] }

/-- A tile whose single data block (sample 50, valid checksum) sits right
after 3428 filler bytes; grid not yet loaded. -/
def w1Tile : Tile :=
  ⟨List.replicate 3428 0 ++ [0xAA, 0, 0, 0, 0, 0, 0, 0, 0, 50, 0, 0, 0, 220],
    testUHL, mkTestDSI (1, 1), testACC, none⟩

/-- `w1Tile` after a successful `load_data`. -/
def w1TileLoaded : Tile := { w1Tile with _data := some [[50]] }

/-- A two-column tile whose first block (sample 50) is valid and whose second
block starts with the byte 7 instead of the sentinel `0xAA` but has a correct
checksum. -/
def c5Tile : Tile :=
  ⟨List.replicate 3428 0 ++ [0xAA, 0, 0, 0, 0, 0, 0, 0, 0, 50, 0, 0, 0, 220] ++
      [7, 0, 0, 0, 0, 0, 0, 0, 0, 9, 0, 0, 0, 16],
    testUHL, mkTestDSI (2, 1), testACC, none⟩

/-- A tile with a resident grid but no data record at all in its file, so
that reloading fails with `struct.error` on the empty first block. -/
def c8Tile : Tile :=
  ⟨List.replicate 3428 0, testUHL, mkTestDSI (1, 1), testACC, some [[1]]⟩

/-- A tile with a resident `2 × 2` grid. -/
def c6Tile : Tile :=
  ⟨[], testUHL, mkTestDSI (2, 2), testACC, some [[5, 7], [9, 11]]⟩

/-- A data block (length 8) whose stored checksum 1 disagrees with the byte
sum 170 of its first four bytes. -/
def c4Block : List Nat := [0xAA, 0, 0, 0, 0, 0, 0, 1]

/-- A 2700-byte ACC buffer whose first accuracy sub-field is the malformed
(non-numeric, not containing `"NA"`) text `"XYZW"`. -/
def c3BadBuf : List Nat :=
  strBytes "ACC" ++ strBytes "XYZW" ++ strBytes "0000" ++ strBytes "0000" ++
    strBytes "0000" ++ spaces 2681

/-- A 2700-byte ACC buffer exercising all field shapes: `"NA  "` (absent),
`"XX.X"` (malformed), `"0012"` and `" -3 "` (numeric). -/
def c3MixBuf : List Nat :=
  strBytes "ACC" ++ strBytes "NA  " ++ strBytes "XX.X" ++ strBytes "0012" ++
    strBytes " -3 " ++ spaces 2681

/-- The numeric portion of a DMS string in the shape the spec describes:
degree digits, two minute digits, two second digits and an optional
fractional-second digit after a decimal point. -/
def dmsChars (ds : List Char) (m1 m2 s1 s2 : Char) (frac : Option Char) : List Char :=
  ds ++ [m1, m2, s1, s2] ++ (match frac with | none => [] | some f => ['.', f])

/-- Seconds value of the DMS string (at most one fractional digit). -/
def dmsSecondsVal (s1 s2 : Char) (frac : Option Char) : ℚ :=
  ((10 * digitVal s1 + digitVal s2 : Nat) : ℚ) +
    (match frac with | none => 0 | some f => (digitVal f : ℚ) / 10)

/-- The spec's decimal-degree formula `deg + (min + sec/60)/60` for a DMS
string. -/
def dmsValue (ds : List Char) (m1 m2 s1 s2 : Char) (frac : Option Char) : ℚ :=
  (digitsNatVal ds : ℚ) +
    ((((10 * digitVal m1 + digitVal m2 : Nat) : ℚ) + dmsSecondsVal s1 s2 frac / 60) / 60)

/-! ## Theorems -/

set_option maxRecDepth 400000

/-- Bridge between the tail-recursive length guard and `List.length`. -/
theorem lenAtLeast_iff {α : Type} : ∀ (l : List α) (n : Nat),
    lenAtLeast l n = true ↔ n ≤ l.length := by
  intro l
  induction l with
  | nil => intro n; cases n <;> simp [lenAtLeast]
  | cons a t ih => intro n; cases n <;> simp [lenAtLeast, ih, Nat.succ_le_succ_iff]

theorem pyIndex_error_eq {α : Type} (l : List α) (i : Int) (e : PyError)
    (h : pyIndex l i = .error e) : e = .indexError := by
  simp only [pyIndex] at h
  repeat' split at h
  all_goals (simp_all <;> (try cases h) <;> simp)

theorem parse_error_ne_noElev (block : List Nat) (pc : Bool) (e : PyError)
    (h : _parse_data_block block pc = .error e) : e ≠ .noElevationData := by
  unfold _parse_data_block at h
  dsimp only at h
  repeat' split at h
  all_goals (simp_all <;> (try cases h) <;> simp)

theorem pySlice_last4_length (l : List Nat) (h : 4 ≤ l.length) :
    (pySlice l (-4) (l.length : Int)).length = 4 := by
  unfold pySlice pyNormIdx
  split_ifs <;> simp_all <;> omega

theorem pyIndex_ne_noElev {α : Type} (l : List α) (i : Int) :
    pyIndex l i ≠ .error .noElevationData := fun h => by
  cases pyIndex_error_eq l i _ h

theorem lookup_ne_noElev (t : Tile) (p : LatLon) :
    Tile.lookup_elevation t p ≠ .error .noElevationData := by
  unfold Tile.lookup_elevation
  dsimp only
  repeat' split
  all_goals intro hc
  all_goals first
    | exact pyIndex_ne_noElev _ _ hc
    | exact absurd (Except.error.inj hc) (by simp)
    | (rename_i heq; cases Except.error.inj hc; exact pyIndex_ne_noElev _ _ heq)
    | (rename_i heq; cases Except.error.inj hc; exact absurd rfl (parse_error_ne_noElev _ _ _ heq))

/-- C2 claim formalised over 16-bit patterns; amended part. -/
theorem C2_convert_amended (x : Nat) (hx : x < 65536) :
    (x < 32768 → convertPattern x = x) ∧
    (32768 ≤ x → (convertPattern x : Int) = (32768 - (x : Int)) % 65536) ∧
    (x ≠ 32768 → convertPattern (convertPattern x) = x) := by
  simp only [convertPattern, toPattern16, convertSample, toSigned16, wrap16]
  refine ⟨fun h => ?_, fun h => ?_, fun h => ?_⟩ <;> split_ifs <;> omega

/-- C2 counterexample: the conversion is not an involution at the pattern
`0x8000` (signed-magnitude "negative zero"), which maps to `0x0000` and then
stays there. -/
theorem C2_counterexample :
    ¬ (convertPattern (convertPattern 0x8000) = 0x8000) := by decide

/-- C2 witness: the amended involution at the concrete pattern `0xAAAA`. -/
theorem C2_convert_amended_witness :
    convertPattern (convertPattern 0xAAAA) = 0xAAAA :=
  (C2_convert_amended 0xAAAA (by decide)).2.2 (by decide)

/-- C10: the coverage test raises `TypeError` on any non-`LatLon` argument,
and `get_elevation`, which runs it first, propagates the same error. -/
theorem C10_non_latlon_type_error :
    ∀ (t : Tile) (s : String),
      Tile.contains_py t (PyObj.other s) = .error .typeError ∧
      Tile.get_elevation_py t (PyObj.other s) = .error .typeError := by
  intro t s
  exact ⟨rfl, rfl⟩

/-- C8: if `load_data` fails on any data block, the tile state (in
particular its grid) is unchanged — the grid is only installed after every
block has parsed. -/
theorem C8_load_failure_leaves_grid (t : Tile) (pc : Bool) (e : PyError)
    (h : (Tile.load_data_st t pc).1 = .error e) : (Tile.load_data_st t pc).2 = t := by
  unfold Tile.load_data_st at h ⊢
  rcases hp : parseBlocks (t.fileBytes.drop headerTotalSize) t.dsi.data_block_length pc
      (List.range t.dsi.shape.1.toNat) with e' | bs <;> simp [hp] at h ⊢

/-- C8 witness: a tile whose reload fails with `struct.error` keeps its
resident grid. -/
theorem C8_witness : (Tile.load_data_st c8Tile true).2 = c8Tile :=
  C8_load_failure_leaves_grid c8Tile true .structError (by with_unfolding_all rfl)

/-- With a matching checksum, checksummed decoding continues exactly as
unchecksummed decoding does. -/
theorem parse_true_of_match (block : List Nat)
    (h4 : (pySlice block (-4) (block.length : Int)).length = 4)
    (hm : ((pySlice block 0 (-4)).sum : Int) =
      toSigned32 (beU32 (pySlice block (-4) (block.length : Int)))) :
    _parse_data_block block true = _parse_data_block block false := by
  simp [_parse_data_block, h4, hm]

/-- Unchecksummed decoding never reports a checksum mismatch. -/
theorem parse_false_no_checksum (block : List Nat) (i ex : Int) (f : Nat) :
    _parse_data_block block false ≠ .error (.checksumMismatch i ex f) := by
  unfold _parse_data_block
  dsimp only
  repeat' split
  all_goals intro hc
  all_goals try contradiction
  all_goals first
    | exact Except.noConfusion hc
    | exact absurd (Except.error.inj hc) (by simp)

/-- C5 (amended): a block whose first byte is not `0xAA` fails with a
bad-sentinel error that carries that first byte (not the column index). -/
theorem C5_bad_sentinel_amended (block : List Nat) (b0 : Nat)
    (h0 : block.head? = some b0) (hs : b0 ≠ 0xAA) :
    _parse_data_block block false = .error (.badSentinel b0) ∧
    (4 ≤ block.length →
      ((pySlice block 0 (-4)).sum : Int) =
        toSigned32 (beU32 (pySlice block (-4) (block.length : Int))) →
      _parse_data_block block true = .error (.badSentinel b0)) := by
  constructor
  · simp [_parse_data_block, h0, hs]
  · intro hlen hsum
    have h4 := pySlice_last4_length block hlen
    simp [_parse_data_block, h0, hs, h4, hsum]

/-- C5 counterexample: a load whose column 1 block starts with the byte 7
fails with a bad-sentinel error carrying 7 (the first byte found), while the
offending column index is 1 — the error does not report the column index. -/
theorem C5_counterexample :
    Tile.load_data_st c5Tile true = (.error (.badSentinel 7), c5Tile) ∧
    parseBlocks (c5Tile.fileBytes.drop headerTotalSize) c5Tile.dsi.data_block_length true
      [0] = .ok [[50]] ∧
    (7 : Nat) ≠ 1 :=
  ⟨by with_unfolding_all rfl, by with_unfolding_all rfl, by decide⟩

/-- C5 witness: the amended bad-sentinel behaviour at a concrete block. -/
theorem C5_witness :
    _parse_data_block [7, 0, 0, 0, 0, 0, 0, 0, 0, 9, 0, 0, 0, 16] false =
      .error (.badSentinel 7) :=
  (C5_bad_sentinel_amended [7, 0, 0, 0, 0, 0, 0, 0, 0, 9, 0, 0, 0, 16] 7 rfl (by decide)).1

/-- C4: with checksumming on, a block of at least 4 bytes fails with a
checksum mismatch exactly when the byte sum of everything but the last 4
bytes differs from the signed big-endian value of the last 4 bytes, and the
reported block index is `(0xAA << 24) - unpack(">I", block[:4])`. -/
theorem C4_checksum_mismatch (block : List Nat) (h : 4 ≤ block.length) :
    ((∃ i ex f, _parse_data_block block true = .error (.checksumMismatch i ex f)) ↔
      ((pySlice block 0 (-4)).sum : Int) ≠
        toSigned32 (beU32 (pySlice block (-4) (block.length : Int)))) ∧
    (((pySlice block 0 (-4)).sum : Int) ≠
        toSigned32 (beU32 (pySlice block (-4) (block.length : Int))) →
      _parse_data_block block true =
        .error (.checksumMismatch ((0xAA <<< 24 : Int) - (beU32 (pySlice block 0 4) : Int))
          (toSigned32 (beU32 (pySlice block (-4) (block.length : Int))))
          ((pySlice block 0 (-4)).sum))) := by
  have h4 := pySlice_last4_length block h
  by_cases hm : ((pySlice block 0 (-4)).sum : Int) =
      toSigned32 (beU32 (pySlice block (-4) (block.length : Int)))
  · have heq := parse_true_of_match block h4 hm
    constructor
    · constructor
      · rintro ⟨i, ex, f, hc⟩
        exact absurd (heq ▸ hc) (parse_false_no_checksum block i ex f)
      · intro hne; exact absurd hm hne
    · intro hne; exact absurd hm hne
  · have hp : _parse_data_block block true =
        .error (.checksumMismatch ((0xAA <<< 24 : Int) - (beU32 (pySlice block 0 4) : Int))
          (toSigned32 (beU32 (pySlice block (-4) (block.length : Int))))
          ((pySlice block 0 (-4)).sum)) := by
      simp only [_parse_data_block]
      rw [if_true, if_neg (by simp [h4]), if_pos hm]
    exact ⟨⟨fun _ => hm, fun _ => ⟨_, _, _, hp⟩⟩, fun _ => hp⟩

/-- C4 witness: a concrete 8-byte block with stored checksum 1 and byte sum
170 fails with the mismatch error and self-reported index 0. -/
theorem C4_witness :
    _parse_data_block c4Block true = .error (.checksumMismatch 0 1 170) := by
  have h := (C4_checksum_mismatch c4Block (by decide)).2 (by decide)
  exact h.trans (by decide)

/-- C7: coverage is the inclusive bounding-box test on the DSI south-west and
north-east corners, and `get_elevation` fails with `NoElevationDataError`
exactly on points outside coverage. -/
theorem C7_contains_characterisation : ∀ (t : Tile) (p : LatLon),
    (Tile.contains t p = true ↔
      (t.dsi.south_west_corner.latitude ≤ p.latitude ∧
        p.latitude ≤ t.dsi.north_east_corner.latitude ∧
        t.dsi.south_west_corner.longitude ≤ p.longitude ∧
        p.longitude ≤ t.dsi.north_east_corner.longitude)) ∧
    (Tile.get_elevation t p = .error .noElevationData ↔ Tile.contains t p = false) := by
  intro t p
  constructor
  · simp [Tile.contains, and_assoc]
  · unfold Tile.get_elevation
    cases hc : Tile.contains t p
    · simp
    · simp [lookup_ne_noElev t p]

/-- In lenient (`unsafe`) mode an accuracy sub-field always decodes, to
absent exactly when it contains `"NA"` or is malformed. -/
theorem accField_lenient (s : List Nat) :
    accField s true = .ok (if hasNA s then none else pyInt? s) := by
  unfold accField
  split
  · rfl
  · cases h : pyInt? s <;> simp [h]

/-- In strict (default) mode an accuracy sub-field decodes successfully
exactly when it contains `"NA"` or parses as an integer. -/
theorem accField_strict_isOk (s : List Nat) :
    (accField s false).isOk = (hasNA s || (pyInt? s).isSome) := by
  unfold accField
  split
  · simp [Except.isOk, Except.toBool, *]
  · cases h : pyInt? s <;> simp [Except.isOk, Except.toBool, *]

/-- C3 (amended): with the `unsafe` flag set the ACC parse always succeeds on
a sentinel-correct buffer of at least 2700 bytes, decoding `"NA"` and
malformed sub-fields to absent; under the default strict mode (the one
`Tile.__init__` uses) the parse succeeds exactly when every sub-field either
contains `"NA"` or parses as an integer. -/
theorem C3_acc_fail_soft_amended (data : List Nat)
    (hlen : 2700 ≤ data.length) (hs : data.take 3 = strBytes "ACC") :
    AccuracyDescription.from_bytes data true =
      .ok { absolute_horizontal :=
              if hasNA ((data.drop 3).take 4) then none else pyInt? ((data.drop 3).take 4)
            absolute_vertical :=
              if hasNA ((data.drop 7).take 4) then none else pyInt? ((data.drop 7).take 4)
            relative_horizontal :=
              if hasNA ((data.drop 11).take 4) then none else pyInt? ((data.drop 11).take 4)
            relative_vertical :=
              if hasNA ((data.drop 15).take 4) then none else pyInt? ((data.drop 15).take 4)
            _data := data } ∧
    (AccuracyDescription.from_bytes data false).isOk =
      ((hasNA ((data.drop 3).take 4) || (pyInt? ((data.drop 3).take 4)).isSome) &&
        (hasNA ((data.drop 7).take 4) || (pyInt? ((data.drop 7).take 4)).isSome) &&
        (hasNA ((data.drop 11).take 4) || (pyInt? ((data.drop 11).take 4)).isSome) &&
        (hasNA ((data.drop 15).take 4) || (pyInt? ((data.drop 15).take 4)).isSome)) := by
  have hguard : lenAtLeast data 2700 = true := (lenAtLeast_iff data 2700).mpr hlen
  constructor
  · simp [AccuracyDescription.from_bytes, hguard, hs, accField_lenient]
  · rw [← accField_strict_isOk, ← accField_strict_isOk, ← accField_strict_isOk,
      ← accField_strict_isOk]
    simp only [AccuracyDescription.from_bytes, hguard, hs, Bool.not_true, Bool.false_eq_true,
      if_false, ite_self, reduceIte, ne_eq, not_true_eq_false]
    cases hA1 : accField ((data.drop 3).take 4) false <;>
      cases hA2 : accField ((data.drop 7).take 4) false <;>
        cases hA3 : accField ((data.drop 11).take 4) false <;>
          cases hA4 : accField ((data.drop 15).take 4) false <;>
            simp [Except.isOk, Except.toBool, hA1, hA2, hA3, hA4]

/-- C3 counterexample: under the default strict mode (the one the `Tile`
constructor uses), a sentinel-correct 2700-byte ACC buffer whose first
accuracy sub-field is the malformed text `"XYZW"` makes the parse fail with
`ValueError` instead of decoding to absent. -/
theorem C3_counterexample :
    AccuracyDescription.from_bytes c3BadBuf false = .error .valueError := by
  with_unfolding_all rfl

/-- C3 witness: the amended lenient-mode behaviour on a buffer mixing
`"NA"`, malformed and numeric sub-fields. -/
theorem C3_witness :
    AccuracyDescription.from_bytes c3MixBuf true =
      .ok { absolute_horizontal := none
            absolute_vertical := none
            relative_horizontal := some 12
            relative_vertical := some (-3)
            _data := c3MixBuf } := by
  have h := (C3_acc_fail_soft_amended c3MixBuf
    ((lenAtLeast_iff c3MixBuf 2700).mp (by with_unfolding_all rfl))
    (by with_unfolding_all rfl)).1
  exact h.trans (by with_unfolding_all rfl)

/-- C6: inside coverage, with nonzero intervals and a resident grid,
`get_elevation` returns the grid sample at the rounded nearest indices
(Python `round`, ties to even). -/
theorem C6_nearest_index_lookup (t : Tile) (p : LatLon) (g : List (List Int))
    (hd : t._data = some g) (hc : Tile.contains t p = true)
    (hlat : ¬ t.dsi.latitude_interval = 0) (hlon : ¬ t.dsi.longitude_interval = 0) :
    Tile.get_elevation t p =
      match pyIndex g (roundHalfEven ((p.longitude - t.dsi.origin.longitude) *
          ((t.dsi.shape.1 : ℚ) - 1) / t.dsi.longitude_interval)) with
      | .error e => .error e
      | .ok row => pyIndex row (roundHalfEven ((p.latitude - t.dsi.origin.latitude) *
          ((t.dsi.shape.2 : ℚ) - 1) / t.dsi.latitude_interval)) := by
  unfold Tile.get_elevation Tile.lookup_elevation Tile.latitude_index Tile.longitude_index
  rw [if_pos hc, if_neg hlat, if_neg hlon, hd]

/-- C6 witness: nearest-index lookup on a concrete `2 × 2` grid. -/
theorem C6_witness : Tile.get_elevation c6Tile ⟨1, 1⟩ = .ok 11 := by
  have h := C6_nearest_index_lookup c6Tile ⟨1, 1⟩ [[5, 7], [9, 11]] rfl
    (by with_unfolding_all decide) (by with_unfolding_all decide) (by with_unfolding_all decide)
  exact h.trans (by with_unfolding_all rfl)

theorem isDigit_ne_special (c : Char) (h : c.isDigit = true) :
    c ≠ ' ' ∧ c ≠ '+' ∧ c ≠ '-' ∧ c ≠ '.' := by
  refine ⟨?_, ?_, ?_, ?_⟩ <;> rintro rfl <;> exact absurd h (by decide)

theorem dropWhile_spaces_eq_self (l : List Char) (h : ∀ c ∈ l, c ≠ ' ') :
    l.dropWhile (fun c => c = ' ') = l := by
  cases l with
  | nil => rfl
  | cons a t =>
    rw [List.dropWhile_cons, if_neg (by simp [h a (List.mem_cons_self a t)])]

theorem stripSpaces_eq_self (l : List Char) (h : ∀ c ∈ l, c ≠ ' ') :
    stripSpaces l = l := by
  unfold stripSpaces
  rw [dropWhile_spaces_eq_self l h,
    dropWhile_spaces_eq_self l.reverse (fun c hc => h c (List.mem_reverse.mp hc)),
    List.reverse_reverse]

theorem all_digits_no_space (l : List Char) (h : l.all Char.isDigit = true) :
    ∀ c ∈ l, c ≠ ' ' :=
  fun c hc => (isDigit_ne_special c (List.all_eq_true.mp h c hc)).1

theorem pyIntChars?_digits (l : List Char) (h1 : l ≠ []) (h2 : l.all Char.isDigit = true) :
    pyIntChars? l = some ((digitsNatVal l : Nat) : Int) := by
  unfold pyIntChars?
  rw [stripSpaces_eq_self l (all_digits_no_space l h2)]
  cases l with
  | nil => exact absurd rfl h1
  | cons c r =>
    have hc := isDigit_ne_special c (List.all_eq_true.mp h2 c (List.mem_cons_self c r))
    dsimp only
    rw [if_neg hc.2.1, if_neg hc.2.2.1]
    unfold digitsVal?
    rw [if_pos ⟨List.cons_ne_nil c r, h2⟩]
    rfl

theorem digitsNatVal_pair (a b : Char) :
    digitsNatVal [a, b] = 10 * digitVal a + digitVal b := by
  simp [digitsNatVal]

theorem pyFloatChars?_pair (s1 s2 : Char) (h1 : s1.isDigit = true) (h2 : s2.isDigit = true) :
    pyFloatChars? [s1, s2] = some ((10 * digitVal s1 + digitVal s2 : Nat) : ℚ) := by
  have hc1 := isDigit_ne_special s1 h1
  have hc2 := isDigit_ne_special s2 h2
  have hns := stripSpaces_eq_self [s1, s2] (by
    intro c hc
    simp only [List.mem_cons, List.not_mem_nil, or_false] at hc
    rcases hc with rfl | rfl
    · exact hc1.1
    · exact hc2.1)
  simp [pyFloatChars?, hns, List.takeWhile_cons, List.dropWhile_cons,
    hc1.2.1, hc1.2.2.1, hc1.2.2.2, hc2.2.2.2, h1, h2, digitsNatVal_pair]

theorem pyFloatChars?_pair_frac (s1 s2 f : Char)
    (h1 : s1.isDigit = true) (h2 : s2.isDigit = true) (h3 : f.isDigit = true) :
    pyFloatChars? [s1, s2, '.', f] =
      some (((10 * digitVal s1 + digitVal s2 : Nat) : ℚ) + (digitVal f : ℚ) / 10) := by
  have hc1 := isDigit_ne_special s1 h1
  have hc2 := isDigit_ne_special s2 h2
  have hc3 := isDigit_ne_special f h3
  have hns := stripSpaces_eq_self [s1, s2, '.', f] (by
    intro c hc
    simp only [List.mem_cons, List.not_mem_nil, or_false] at hc
    rcases hc with rfl | rfl | rfl | rfl
    · exact hc1.1
    · exact hc2.1
    · decide
    · exact hc3.1)
  simp [pyFloatChars?, hns, List.takeWhile_cons, List.dropWhile_cons,
    hc1.2.1, hc1.2.2.1, hc1.2.2.2, hc2.2.2.2, h1, h2, h3, digitsNatVal_pair,
    digitsNatVal, digitVal]

theorem pySlice_neg_neg {α : Type} (l : List α) (a b : Nat) (h0 : 0 < b) (hba : b ≤ a)
    (hal : a ≤ l.length) :
    pySlice l (-(a : Int)) (-(b : Int)) = (l.take (l.length - b)).drop (l.length - a) := by
  unfold pySlice pyNormIdx
  rw [if_pos (by omega), if_pos (by omega)]
  have e1 : ((l.length : Int) + -(a : Int)).toNat = l.length - a := by omega
  have e2 : ((l.length : Int) + -(b : Int)).toNat = l.length - b := by omega
  rw [e1, e2]

theorem pySlice_zero_neg {α : Type} (l : List α) (b : Nat) (h0 : 0 < b)
    (hbl : b ≤ l.length) :
    pySlice l 0 (-(b : Int)) = l.take (l.length - b) := by
  unfold pySlice pyNormIdx
  rw [if_neg (by omega), if_pos (by omega)]
  have e2 : ((l.length : Int) + -(b : Int)).toNat = l.length - b := by omega
  have e0 : min (0 : Int).toNat l.length = 0 := by omega
  rw [e2, e0, List.drop_zero]

theorem pySlice_neg_len {α : Type} (l : List α) (a : Nat) (h0 : 0 < a)
    (hal : a ≤ l.length) :
    pySlice l (-(a : Int)) ((l.length : Nat) : Int) = l.drop (l.length - a) := by
  unfold pySlice pyNormIdx
  rw [if_pos (by omega), if_neg (by omega)]
  have e1 : ((l.length : Int) + -(a : Int)).toNat = l.length - a := by omega
  have e2 : min ((l.length : Nat) : Int).toNat l.length = l.length := by omega
  rw [e1, e2, List.take_length]

theorem parse_dms_correct_nofrac (ds : List Char) (m1 m2 s1 s2 : Char)
    (hds : ds ≠ []) (hd : ds.all Char.isDigit = true)
    (h1 : m1.isDigit = true) (h2 : m2.isDigit = true)
    (h3 : s1.isDigit = true) (h4 : s2.isDigit = true) :
    parse_dms_coordinate (ds ++ [m1, m2, s1, s2]) =
      .ok (((digitsNatVal ds : Nat) : Int), ((10 * digitVal m1 + digitVal m2 : Nat) : Int),
        ((10 * digitVal s1 + digitVal s2 : Nat) : ℚ)) := by
  have hlen : (ds ++ [m1, m2, s1, s2]).length = ds.length + 4 := by simp
  have hpos : 0 < ds.length := List.length_pos.mpr hds
  unfold parse_dms_coordinate
  dsimp only
  rw [if_neg (by rw [hlen]; omega)]
  have hget : (ds ++ [m1, m2, s1, s2]).get? ((ds ++ [m1, m2, s1, s2]).length - 2) =
      some s1 := by
    rw [hlen, show ds.length + 4 - 2 = ds.length + 2 by omega,
      List.get?_append_right (by omega)]
    simp
  rw [hget, if_neg (by
    intro hc
    exact (isDigit_ne_special s1 h3).2.2.2 (Option.some.inj hc))]
  have hc4 : (-2 - 2 : Int) = -((4 : Nat) : Int) := by norm_num
  have hc2 : (-2 : Int) = -((2 : Nat) : Int) := by norm_num
  have hdeg : pySlice (ds ++ [m1, m2, s1, s2]) 0 (-((4 : Nat) : Int)) = ds := by
    rw [pySlice_zero_neg _ 4 (by omega) (by rw [hlen]; omega), hlen,
      show ds.length + 4 - 4 = ds.length by omega, List.take_left' rfl]
  have hmin : pySlice (ds ++ [m1, m2, s1, s2]) (-((4 : Nat) : Int)) (-((2 : Nat) : Int)) =
      [m1, m2] := by
    rw [pySlice_neg_neg _ 4 2 (by omega) (by omega) (by rw [hlen]; omega), hlen,
      show ds.length + 4 - 2 = ds.length + 2 by omega,
      show ds.length + 4 - 4 = ds.length by omega,
      List.take_append_eq_append_take, List.take_of_length_le (by omega),
      show ds.length + 2 - ds.length = 2 by omega,
      List.drop_append_eq_append_drop, List.drop_of_length_le (by omega),
      show ds.length - ds.length = 0 by omega]
    simp
  have hsec : pySlice (ds ++ [m1, m2, s1, s2]) (-((2 : Nat) : Int))
      (((ds ++ [m1, m2, s1, s2]).length : Nat) : Int) = [s1, s2] := by
    rw [pySlice_neg_len _ 2 (by omega) (by rw [hlen]; omega), hlen,
      show ds.length + 4 - 2 = ds.length + 2 by omega,
      List.drop_append_eq_append_drop, List.drop_of_length_le (by omega),
      show ds.length + 2 - ds.length = 2 by omega]
    simp
  rw [hc4, hc2, hdeg, hmin, hsec, pyIntChars?_digits ds hds hd,
    pyIntChars?_digits [m1, m2] (List.cons_ne_nil m1 [m2]) (by simp [h1, h2]),
    digitsNatVal_pair, pyFloatChars?_pair s1 s2 h3 h4]

theorem parse_dms_correct_frac (ds : List Char) (m1 m2 s1 s2 f : Char)
    (hds : ds ≠ []) (hd : ds.all Char.isDigit = true)
    (h1 : m1.isDigit = true) (h2 : m2.isDigit = true)
    (h3 : s1.isDigit = true) (h4 : s2.isDigit = true) (h5 : f.isDigit = true) :
    parse_dms_coordinate (ds ++ [m1, m2, s1, s2, '.', f]) =
      .ok (((digitsNatVal ds : Nat) : Int), ((10 * digitVal m1 + digitVal m2 : Nat) : Int),
        ((10 * digitVal s1 + digitVal s2 : Nat) : ℚ) + (digitVal f : ℚ) / 10) := by
  have hlen : (ds ++ [m1, m2, s1, s2, '.', f]).length = ds.length + 6 := by simp
  have hpos : 0 < ds.length := List.length_pos.mpr hds
  unfold parse_dms_coordinate
  dsimp only
  rw [if_neg (by rw [hlen]; omega)]
  have hget : (ds ++ [m1, m2, s1, s2, '.', f]).get?
      ((ds ++ [m1, m2, s1, s2, '.', f]).length - 2) = some '.' := by
    rw [hlen, show ds.length + 6 - 2 = ds.length + 4 by omega,
      List.get?_append_right (by omega)]
    simp
  rw [hget, if_pos rfl]
  have hc6 : (-4 - 2 : Int) = -((6 : Nat) : Int) := by norm_num
  have hc4 : (-4 : Int) = -((4 : Nat) : Int) := by norm_num
  have hdeg : pySlice (ds ++ [m1, m2, s1, s2, '.', f]) 0 (-((6 : Nat) : Int)) = ds := by
    rw [pySlice_zero_neg _ 6 (by omega) (by rw [hlen]; omega), hlen,
      show ds.length + 6 - 6 = ds.length by omega, List.take_left' rfl]
  have hmin : pySlice (ds ++ [m1, m2, s1, s2, '.', f]) (-((6 : Nat) : Int))
      (-((4 : Nat) : Int)) = [m1, m2] := by
    rw [pySlice_neg_neg _ 6 4 (by omega) (by omega) (by rw [hlen]; omega), hlen,
      show ds.length + 6 - 4 = ds.length + 2 by omega,
      show ds.length + 6 - 6 = ds.length by omega,
      List.take_append_eq_append_take, List.take_of_length_le (by omega),
      show ds.length + 2 - ds.length = 2 by omega,
      List.drop_append_eq_append_drop, List.drop_of_length_le (by omega),
      show ds.length - ds.length = 0 by omega]
    simp
  have hsec : pySlice (ds ++ [m1, m2, s1, s2, '.', f]) (-((4 : Nat) : Int))
      (((ds ++ [m1, m2, s1, s2, '.', f]).length : Nat) : Int) = [s1, s2, '.', f] := by
    rw [pySlice_neg_len _ 4 (by omega) (by rw [hlen]; omega), hlen,
      show ds.length + 6 - 4 = ds.length + 2 by omega,
      List.drop_append_eq_append_drop, List.drop_of_length_le (by omega),
      show ds.length + 2 - ds.length = 2 by omega]
    simp
  rw [hc6, hc4, hdeg, hmin, hsec, pyIntChars?_digits ds hds hd,
    pyIntChars?_digits [m1, m2] (List.cons_ne_nil m1 [m2]) (by simp [h1, h2]),
    digitsNatVal_pair, pyFloatChars?_pair_frac s1 s2 f h3 h4 h5]

theorem dmsValue_nonneg (ds : List Char) (m1 m2 s1 s2 : Char) (frac : Option Char) :
    0 ≤ dmsValue ds m1 m2 s1 s2 frac := by
  unfold dmsValue dmsSecondsVal
  cases frac <;> positivity

theorem dms_to_decimal_eq_dmsValue (ds : List Char) (m1 m2 s1 s2 : Char)
    (frac : Option Char) :
    dms_to_decimal ((digitsNatVal ds : Nat) : Int) ((10 * digitVal m1 + digitVal m2 : Nat) : Int)
      (dmsSecondsVal s1 s2 frac) = dmsValue ds m1 m2 s1 s2 frac := by
  unfold dms_to_decimal dmsValue
  push_cast
  ring

/-- C9: `from_dted` on a pair of well-formed DMS strings returns exactly the
spec's `deg + (min + sec/60)/60` value, negated for an `S`/`W` hemisphere. -/
theorem C9_from_dted_decodes (latDs lonDs : List Char) (lm1 lm2 ls1 ls2 om1 om2 os1 os2 : Char)
    (latFrac lonFrac : Option Char) (hLat hLon : Char)
    (h1 : latDs ≠ []) (h2 : latDs.all Char.isDigit = true)
    (h3 : [lm1, lm2, ls1, ls2].all Char.isDigit = true)
    (h4 : ∀ f, latFrac = some f → f.isDigit = true)
    (h5 : lonDs ≠ []) (h6 : lonDs.all Char.isDigit = true)
    (h7 : [om1, om2, os1, os2].all Char.isDigit = true)
    (h8 : ∀ f, lonFrac = some f → f.isDigit = true)
    (h9 : dmsValue latDs lm1 lm2 ls1 ls2 latFrac ≤ 90)
    (h10 : dmsValue lonDs om1 om2 os1 os2 lonFrac ≤ 180) :
    LatLon.from_dted (dmsChars latDs lm1 lm2 ls1 ls2 latFrac ++ [hLat])
        (dmsChars lonDs om1 om2 os1 os2 lonFrac ++ [hLon]) =
      .ok ⟨(if hLat = 'S' then (-1 : ℚ) else 1) * dmsValue latDs lm1 lm2 ls1 ls2 latFrac,
           (if hLon = 'W' then (-1 : ℚ) else 1) * dmsValue lonDs om1 om2 os1 os2 lonFrac⟩ := by
  have hbody : ∀ (ds : List Char) (m1 m2 s1 s2 : Char) (frac : Option Char), ds ≠ [] →
      ds.all Char.isDigit = true → ([m1, m2, s1, s2]).all Char.isDigit = true →
      (∀ f, frac = some f → f.isDigit = true) →
      parse_dms_coordinate (dmsChars ds m1 m2 s1 s2 frac) =
        .ok (((digitsNatVal ds : Nat) : Int), ((10 * digitVal m1 + digitVal m2 : Nat) : Int),
          dmsSecondsVal s1 s2 frac) := by
    intro ds m1 m2 s1 s2 frac hds hd hm hf
    simp only [List.all_cons, List.all_nil, Bool.and_eq_true, and_true] at hm
    cases frac with
    | none =>
      have := parse_dms_correct_nofrac ds m1 m2 s1 s2 hds hd hm.1 hm.2.1 hm.2.2.1 hm.2.2.2
      simpa [dmsChars, dmsSecondsVal] using this
    | some f =>
      have := parse_dms_correct_frac ds m1 m2 s1 s2 f hds hd hm.1 hm.2.1 hm.2.2.1 hm.2.2.2
        (hf f rfl)
      simpa [dmsChars, dmsSecondsVal] using this
  have hslice : ∀ (body : List Char) (h : Char),
      pySlice (body ++ [h]) 0 (-1 : Int) = body := by
    intro body h
    have : (-1 : Int) = -((1 : Nat) : Int) := by norm_num
    rw [this, pySlice_zero_neg _ 1 (by omega) (by simp),
      show (body ++ [h]).length - 1 = body.length by simp, List.take_left' rfl]
  unfold LatLon.from_dted
  dsimp only
  rw [if_neg (by simp), List.getLast?_concat, hslice,
    hbody latDs lm1 lm2 ls1 ls2 latFrac h1 h2 h3 h4]
  dsimp only
  rw [if_neg (by simp), List.getLast?_concat, hslice,
    hbody lonDs om1 om2 os1 os2 lonFrac h5 h6 h7 h8]
  dsimp only
  rw [dms_to_decimal_eq_dmsValue, dms_to_decimal_eq_dmsValue]
  have hlat0 := dmsValue_nonneg latDs lm1 lm2 ls1 ls2 latFrac
  have hlon0 := dmsValue_nonneg lonDs om1 om2 os1 os2 lonFrac
  have hr1 : (-90 : ℚ) ≤ (if some hLat = some 'S' then (-1 : ℚ) else 1) *
        dmsValue latDs lm1 lm2 ls1 ls2 latFrac ∧
      (if some hLat = some 'S' then (-1 : ℚ) else 1) *
        dmsValue latDs lm1 lm2 ls1 ls2 latFrac ≤ 90 := by
    split_ifs <;> constructor <;> linarith
  have hr2 : (-180 : ℚ) ≤ (if some hLon = some 'W' then (-1 : ℚ) else 1) *
        dmsValue lonDs om1 om2 os1 os2 lonFrac ∧
      (if some hLon = some 'W' then (-1 : ℚ) else 1) *
        dmsValue lonDs om1 om2 os1 os2 lonFrac ≤ 180 := by
    split_ifs <;> constructor <;> linarith
  unfold mkLatLon
  rw [if_neg (not_not_intro hr1), if_neg (not_not_intro hr2)]
  simp only [Option.some.injEq]

/-- C9 witness: the spec's own example `("423045N", "1170003.6W")` decodes
to latitude 42.5125 and longitude −117.001. -/
theorem C9_witness :
    LatLon.from_dted (strChars "423045N") (strChars "1170003.6W") =
      .ok ⟨425125 / 10000, -(117001 / 1000)⟩ := by
  have h := C9_from_dted_decodes ['4', '2'] ['1', '1', '7'] '3' '0' '4' '5' '0' '0' '0' '3'
    none (some '6') 'N' 'W'
    (by decide) (by decide) (by decide)
    (by intro f hf; cases hf)
    (by decide) (by decide) (by decide)
    (by intro f hf; injection hf with h; subst h; decide)
    (by with_unfolding_all decide) (by with_unfolding_all decide)
  exact h.trans (by with_unfolding_all rfl)

theorem pyIndex_ok_iff {α : Type} (l : List α) (i : Int) (x : α) (h : 0 ≤ i) :
    pyIndex l i = .ok x ↔ l.get? i.toNat = some x := by
  unfold pyIndex
  have hni : ¬ i < 0 := by omega
  simp only [hni, if_false]
  split
  · rename_i hb
    rw [List.get?_eq_get hb.2]
    constructor
    · intro hx; exact congrArg _ (Except.ok.inj hx)
    · intro hx; exact congrArg _ (Option.some.inj hx)
  · rename_i hb
    constructor
    · intro hx; exact absurd hx (by simp)
    · intro hx
      have : i.toNat < l.length := (List.get?_eq_some.mp hx).1
      exact absurd ⟨h, this⟩ hb

theorem pySlice_nonneg {α : Type} (l : List α) (a L : Int) (ha : 0 ≤ a) (hL : 0 ≤ L) :
    pySlice l a (a + L) = (l.drop a.toNat).take L.toNat := by
  unfold pySlice pyNormIdx
  rw [if_neg (by omega), if_neg (by omega)]
  by_cases hle : a.toNat ≤ l.length
  · rw [min_eq_left hle, List.drop_take]
    rw [List.take_eq_take]
    simp only [List.length_drop]
    omega
  · rw [min_eq_right (by omega)]
    rw [List.drop_eq_nil_of_le (by simp only [List.length_take]; omega),
      List.drop_eq_nil_of_le (by omega), List.take_nil]

theorem parseBlocks_ok (dr : List Nat) (L : Int) (pc : Bool) :
    ∀ (cols : List Nat) (bs : List (List Int)),
      parseBlocks dr L pc cols = .ok bs →
      bs.length = cols.length ∧
      ∀ (i c : Nat), cols.get? i = some c →
        ∃ b, bs.get? i = some b ∧
          _parse_data_block (pySlice dr ((c : Int) * L) (((c : Int) + 1) * L)) pc = .ok b := by
  intro cols
  induction cols with
  | nil =>
    intro bs h
    unfold parseBlocks at h
    refine ⟨by simp [← Except.ok.inj h], ?_⟩
    intro i c hc
    simp at hc
  | cons c0 rest ih =>
    intro bs h
    unfold parseBlocks at h
    rcases hp : _parse_data_block
        (pySlice dr ((c0 : Int) * L) (((c0 : Int) + 1) * L)) pc with e | b0
    · rw [hp] at h; exact absurd h (by simp)
    · rw [hp] at h
      rcases hr : parseBlocks dr L pc rest with e | bs'
      · rw [hr] at h; exact absurd h (by simp)
      · rw [hr] at h
        have hbs : bs = b0 :: bs' := (Except.ok.inj h).symm
        subst hbs
        obtain ⟨ihl, ihg⟩ := ih bs' hr
        refine ⟨by simp [ihl], ?_⟩
        intro i c hc
        cases i with
        | zero =>
          simp only [List.get?] at hc ⊢
          exact ⟨b0, rfl, (Option.some.inj hc) ▸ hp⟩
        | succ i' =>
          simp only [List.get?] at hc ⊢
          exact ihg i' c hc

/-- C1 (amended): when `load_data` (checksums on) succeeds and the computed
longitude index and the block length are nonnegative, any value the
in-memory path returns is also returned by the seek-based path. -/
theorem C1_paths_agree_amended (t t2 : Tile) (p : LatLon) (v : Int)
    (hdata : t._data = none)
    (hL : 0 ≤ t.dsi.data_block_length)
    (hload : Tile.load_data_st t true = (.ok (), t2))
    (hlon : 0 ≤ Tile.longitude_index t p)
    (hmem : Tile.get_elevation t2 p = .ok v) :
    Tile.get_elevation t p = .ok v := by
  -- unpack the successful load
  unfold Tile.load_data_st at hload
  dsimp only at hload
  rcases hp : parseBlocks (t.fileBytes.drop headerTotalSize) t.dsi.data_block_length true
      (List.range t.dsi.shape.1.toNat) with e | bs
  · rw [hp] at hload
    exact absurd (congrArg Prod.fst hload) (by simp)
  rw [hp] at hload
  have ht2 : t2 = { t with _data := some (bs.map _convert_signed_magnitude) } :=
    (congrArg Prod.snd hload).symm
  subst ht2
  obtain ⟨hlen_bs, hblocks⟩ := parseBlocks_ok _ _ _ _ _ hp
  rw [List.length_range] at hlen_bs
  -- unpack the in-memory success
  unfold Tile.get_elevation at hmem ⊢
  cases hcont : Tile.contains t p with
  | false =>
    rw [show Tile.contains { t with _data := some (bs.map _convert_signed_magnitude) } p =
      Tile.contains t p from rfl, hcont, if_neg (by simp)] at hmem
    exact absurd hmem (by simp)
  | true =>
  rw [show Tile.contains { t with _data := some (bs.map _convert_signed_magnitude) } p =
    Tile.contains t p from rfl, hcont] at hmem
  rw [if_pos rfl] at hmem ⊢
  unfold Tile.lookup_elevation at hmem ⊢
  by_cases hlat0 : t.dsi.latitude_interval = 0
  · rw [if_pos hlat0] at hmem
    exact absurd hmem (by simp)
  rw [if_neg hlat0] at hmem ⊢
  by_cases hlon0 : t.dsi.longitude_interval = 0
  · rw [if_pos hlon0] at hmem
    exact absurd hmem (by simp)
  rw [if_neg hlon0] at hmem ⊢
  dsimp only at hmem ⊢
  rw [hdata]
  have hidx : Tile.longitude_index
      { t with _data := some (bs.map _convert_signed_magnitude) } p =
      Tile.longitude_index t p := rfl
  have hidx2 : Tile.latitude_index
      { t with _data := some (bs.map _convert_signed_magnitude) } p =
      Tile.latitude_index t p := rfl
  rw [hidx, hidx2] at hmem
  rcases hrow : pyIndex (bs.map _convert_signed_magnitude) (Tile.longitude_index t p)
      with e | row
  · rw [hrow] at hmem
    exact absurd hmem (by simp)
  rw [hrow] at hmem
  -- identify the row with a parsed block
  have hget := (pyIndex_ok_iff _ _ _ hlon).mp hrow
  rw [List.get?_map] at hget
  rcases hb : bs.get? (Tile.longitude_index t p).toNat with _ | b
  · rw [hb] at hget; exact absurd hget (by simp)
  rw [hb] at hget
  have hrowb : row = _convert_signed_magnitude b := (Option.some.inj hget).symm
  have hkn : (Tile.longitude_index t p).toNat < t.dsi.shape.1.toNat := by
    obtain ⟨hlt, -⟩ := List.get?_eq_some.mp hb
    omega
  obtain ⟨b', hb', hparse⟩ := hblocks (Tile.longitude_index t p).toNat
    (Tile.longitude_index t p).toNat (List.get?_range hkn)
  have hbb : b' = b := by
    rw [hb] at hb'
    exact Option.some.inj hb'.symm
  subst hbb
  -- now the seek-based path
  have hoffnn : (0 : Int) ≤ Tile.longitude_index t p * t.dsi.data_block_length :=
    mul_nonneg hlon hL
  rw [if_neg (by omega)]
  have hread : pyRead (t.fileBytes.drop
        ((headerTotalSize : Int) + Tile.longitude_index t p * t.dsi.data_block_length).toNat)
      t.dsi.data_block_length =
      pySlice (t.fileBytes.drop headerTotalSize)
        (((Tile.longitude_index t p).toNat : Int) * t.dsi.data_block_length)
        ((((Tile.longitude_index t p).toNat : Int) + 1) * t.dsi.data_block_length) := by
    have hcast : ((Tile.longitude_index t p).toNat : Int) = Tile.longitude_index t p :=
      Int.toNat_of_nonneg hlon
    rw [hcast, add_one_mul,
      pySlice_nonneg _ _ _ hoffnn hL, List.drop_drop]
    unfold pyRead
    rw [if_neg (by omega)]
    have heq : ((headerTotalSize : Int) +
        Tile.longitude_index t p * t.dsi.data_block_length).toNat =
        (Tile.longitude_index t p * t.dsi.data_block_length).toNat + headerTotalSize := by
      omega
    rw [heq, Nat.add_comm ((Tile.longitude_index t p * t.dsi.data_block_length).toNat)
      headerTotalSize]
  rw [hread, hparse]
  dsimp only
  rw [← hrowb]
  exact hmem

/-- C1 counterexample: a complete crafted file, accepted end-to-end by the
parser, on which the in-memory path returns 200 while the seek-based path
returns 999 for the same in-coverage query point.  Its DSI origin is the
south-east corner, so the longitude index of the point `(0, 0)` is `-1`:
numpy indexing wraps around to the last column while the file seek lands 14
bytes before the data record, inside the ACC record's unparsed tail. -/
theorem C1_counterexample :
    ((Tile.init cexFile true).bind (fun t => Tile.get_elevation t cexPoint)) = .ok 200 ∧
    ((Tile.init cexFile false).bind (fun t => Tile.get_elevation t cexPoint)) = .ok 999 ∧
    ((Tile.init cexFile false).map (fun t => Tile.contains t cexPoint)) = .ok true ∧
    (200 : Int) ≠ 999 :=
  ⟨by with_unfolding_all rfl, by with_unfolding_all rfl, by with_unfolding_all rfl, by decide⟩

/-- C1 witness: the amended path agreement at a concrete one-block tile. -/
theorem C1_witness : Tile.get_elevation w1Tile ⟨0, 0⟩ = .ok 50 :=
  C1_paths_agree_amended w1Tile w1TileLoaded ⟨0, 0⟩ 50 rfl
    (by with_unfolding_all decide)
    (by with_unfolding_all rfl)
    (by with_unfolding_all decide)
    (by with_unfolding_all rfl)

end DTED

